import Mathlib

/-!
# Verification of `EvaluatorPairLJLow` (pair_plugin)

Shallow embedding of `src/EvaluatorPairLJLow.h`: the parameter block
`param_type`, the evaluator `EvaluatorPairLJLow`, and its operations
(`evalForceAndEnergy`, capability flags, setters, LRC integrals, name and
shape-spec query).  Scalar arithmetic (`ShortReal` / `Scalar` in the C++
source) is modelled exactly over `ℚ`; the one genuinely real-valued
operation, the sixth root taken in `param_type::asDict`, is modelled over
`ℝ` with `Real.rpow`.  The two reference out-parameters `force_divr` and
`pair_eng` of `evalForceAndEnergy` are modelled by passing their incoming
values in and returning the (possibly updated) values, so that "the outputs
are not written on failure" is visible in the embedding.
-/

namespace LJLow

/-- Parameter block of the potential: the two precomputed Lennard-Jones
coefficients.  Mirrors `struct param_type { ShortReal lj1; ShortReal lj2; }`
(EvaluatorPairLJLow.h lines 140-184). -/
structure param_type where
  lj1 : ℚ
  lj2 : ℚ
  deriving Repr, DecidableEq

/-- The default constructor `param_type() : lj1(0), lj2(0) { }`
(EvaluatorPairLJLow.h line 158). -/
def param_type.default : param_type := { lj1 := 0, lj2 := 0 }

/-- The testing constructor `param_type(ShortReal sigma, ShortReal epsilon)`:
`lj1 = 4.0 * epsilon * pow(sigma, 12.0); lj2 = 4.0 * epsilon * pow(sigma, 6.0);`
(EvaluatorPairLJLow.h lines 169-173).  The dict constructor (lines 160-166)
computes the same two coefficients from the values bound to the keys
`sigma` and `epsilon`. -/
def param_type.ofSigmaEpsilon (sigma epsilon : ℚ) : param_type :=
  { lj1 := 4 * epsilon * sigma ^ 12, lj2 := 4 * epsilon * sigma ^ 6 }

/-- `param_type::asDict` (EvaluatorPairLJLow.h lines 175-182):
`sigma6 = lj1 / lj2; v["sigma"] = pow(sigma6, 1./6.);
v["epsilon"] = lj2 / (sigma6 * 4);` returned here as the pair
(sigma, epsilon).  The sixth root forces the model into `ℝ`. -/
noncomputable def param_type.asDict (p : param_type) : ℝ × ℝ :=
  let sigma6 : ℝ := (p.lj1 : ℝ) / (p.lj2 : ℝ)
  (sigma6 ^ ((1 : ℝ) / 6), (p.lj2 : ℝ) / (sigma6 * 4))

/-- Evaluator state captured by the constructor
`EvaluatorPairLJLow(ShortReal _rsq, ShortReal _rcutsq, const param_type&)`
`: rsq(_rsq), rcutsq(_rcutsq), lj1(_params.lj1), lj2(_params.lj2)`
(EvaluatorPairLJLow.h lines 196-199 and member fields lines 283-288). -/
structure EvaluatorPairLJLow where
  rsq : ℚ
  rcutsq : ℚ
  lj1 : ℚ
  lj2 : ℚ
  deriving Repr, DecidableEq

/-- The constructor (EvaluatorPairLJLow.h lines 196-199). -/
def EvaluatorPairLJLow.ofParams (rsq rcutsq : ℚ) (params : param_type) :
    EvaluatorPairLJLow :=
  { rsq := rsq, rcutsq := rcutsq, lj1 := params.lj1, lj2 := params.lj2 }

/-- `static bool needsDiameter() { return false; }`
(EvaluatorPairLJLow.h lines 202-205). -/
def EvaluatorPairLJLow.needsDiameter : Bool := false

/-- `static bool needsCharge() { return false; }`
(EvaluatorPairLJLow.h lines 213-216). -/
def EvaluatorPairLJLow.needsCharge : Bool := false

/-- `void setDiameter(Scalar di, Scalar dj) { }` — an empty body, so the
evaluator state is returned unchanged (EvaluatorPairLJLow.h line 210). -/
def EvaluatorPairLJLow.setDiameter (e : EvaluatorPairLJLow) (di dj : ℚ) :
    EvaluatorPairLJLow :=
  e

/-- `void setCharge(Scalar qi, Scalar qj) { }` — an empty body, so the
evaluator state is returned unchanged (EvaluatorPairLJLow.h line 221). -/
def EvaluatorPairLJLow.setCharge (e : EvaluatorPairLJLow) (qi qj : ℚ) :
    EvaluatorPairLJLow :=
  e

/-- `bool evalForceAndEnergy(Scalar& force_divr, Scalar& pair_eng, bool
energy_shift)` (EvaluatorPairLJLow.h lines 234-255).  The incoming values of
the two reference parameters are passed in as `force_divr` and `pair_eng`;
the result is `(returned flag, force_divr after the call, pair_eng after the
call)`.  In the `else` branch the body writes neither reference, so the
incoming values come back unchanged. -/
def EvaluatorPairLJLow.evalForceAndEnergy (e : EvaluatorPairLJLow)
    (force_divr pair_eng : ℚ) (energy_shift : Bool) : Bool × ℚ × ℚ :=
  if e.rsq < e.rcutsq ∧ e.lj1 ≠ 0 then
    let r2inv : ℚ := 1 / e.rsq
    let r6inv : ℚ := r2inv * r2inv * r2inv
    let force_divr : ℚ := r2inv * r6inv * (12 * e.lj1 * r6inv - 6 * e.lj2)
    let pair_eng : ℚ := r6inv * (e.lj1 * r6inv - e.lj2)
    let pair_eng : ℚ :=
      if energy_shift then
        let rcut2inv : ℚ := 1 / e.rcutsq
        let rcut6inv : ℚ := rcut2inv * rcut2inv * rcut2inv
        pair_eng - rcut6inv * (e.lj1 * rcut6inv - e.lj2)
      else
        pair_eng
    (true, force_divr, pair_eng)
  else
    (false, force_divr, pair_eng)

/-- `Scalar evalPressureLRCIntegral() { return 0; }`
(EvaluatorPairLJLow.h lines 257-260). -/
def EvaluatorPairLJLow.evalPressureLRCIntegral (e : EvaluatorPairLJLow) : ℚ := 0

/-- `Scalar evalEnergyLRCIntegral() { return 0; }`
(EvaluatorPairLJLow.h lines 262-265). -/
def EvaluatorPairLJLow.evalEnergyLRCIntegral (e : EvaluatorPairLJLow) : ℚ := 0

/-- `static std::string getName() { return std::string("ljlow"); }`
(EvaluatorPairLJLow.h lines 271-274). -/
def EvaluatorPairLJLow.getName : String := "ljlow"

/-- `std::string getShapeSpec() const { throw std::runtime_error("Shape
definition not supported for this pair potential."); }`
(EvaluatorPairLJLow.h lines 276-279): the body unconditionally throws, so
the embedding is the constant error value carrying the thrown message. -/
def EvaluatorPairLJLow.getShapeSpec (e : EvaluatorPairLJLow) :
    Except String String :=
  Except.error "Shape definition not supported for this pair potential."

end LJLow

namespace LJLow

/-- C1: for every `rsq`, `rcutsq`, `lj1`, `lj2` and every `energy_shift`
flag, `evalForceAndEnergy` returns `true` iff `rsq < rcutsq` and `lj1 ≠ 0`;
it is a total function (it never throws), and when it returns `false` the
`force_divr` / `pair_eng` out-parameters are left untouched (the caller's
incoming values come back, carrying no information from this call). -/
theorem C1_valid_iff (e : EvaluatorPairLJLow) (f p : ℚ) (s : Bool) :
    ((e.evalForceAndEnergy f p s).1 = true ↔ e.rsq < e.rcutsq ∧ e.lj1 ≠ 0) ∧
      ((e.evalForceAndEnergy f p s).1 = false →
        (e.evalForceAndEnergy f p s).2 = (f, p)) := by
  unfold EvaluatorPairLJLow.evalForceAndEnergy
  by_cases h : e.rsq < e.rcutsq ∧ e.lj1 ≠ 0 <;> simp [h]

/-- Witness for C1 at a concrete invalid input (`rsq = 10 ≥ rcutsq = 9`):
the out-parameters come back unchanged. -/
theorem C1_valid_iff_witness :
    ((EvaluatorPairLJLow.mk 10 9 4 4).evalForceAndEnergy 7 5 false).2 = (7, 5) :=
  (C1_valid_iff ⟨10, 9, 4, 4⟩ 7 5 false).2 (by decide)

/-- C2: on every valid input (`rsq < rcutsq`, `lj1 ≠ 0`) with
`energy_shift = false`, `evalForceAndEnergy` returns `true` with
`force_divr = r2inv * r6inv * (12*lj1*r6inv - 6*lj2)` and
`pair_eng = r6inv * (lj1*r6inv - lj2)`, where `r2inv = 1/rsq` and
`r6inv = r2inv` cubed. -/
theorem C2_noshift_formula (e : EvaluatorPairLJLow) (f p : ℚ)
    (hr : e.rsq < e.rcutsq) (hl : e.lj1 ≠ 0) :
    e.evalForceAndEnergy f p false =
      (true,
       (1 / e.rsq) * (1 / e.rsq) ^ 3 *
         (12 * e.lj1 * (1 / e.rsq) ^ 3 - 6 * e.lj2),
       (1 / e.rsq) ^ 3 * (e.lj1 * (1 / e.rsq) ^ 3 - e.lj2)) := by
  simp only [EvaluatorPairLJLow.evalForceAndEnergy, if_pos (And.intro hr hl),
    Bool.false_eq_true, if_false, Prod.mk.injEq, true_and]
  constructor <;> ring

/-- Witness for C2 at `rsq = 1 < rcutsq = 9`, `lj1 = lj2 = 4`. -/
theorem C2_noshift_formula_witness :
    (EvaluatorPairLJLow.mk 1 9 4 4).evalForceAndEnergy 0 0 false =
      (true,
       (1 / (1:ℚ)) * (1 / (1:ℚ)) ^ 3 * (12 * 4 * (1 / (1:ℚ)) ^ 3 - 6 * 4),
       (1 / (1:ℚ)) ^ 3 * (4 * (1 / (1:ℚ)) ^ 3 - 4)) :=
  C2_noshift_formula ⟨1, 9, 4, 4⟩ 0 0 (by decide) (by decide)

/-- C3: on every valid input, the `energy_shift = true` run returns the same
`force_divr` as the `energy_shift = false` run, and a `pair_eng` equal to
the unshifted one minus the energy formula evaluated at `rcutsq`, namely
`rcut6inv * (lj1*rcut6inv - lj2)` with `rcut6inv = (1/rcutsq)` cubed: the
shift changes only the energy output, never the force output. -/
theorem C3_shift_only_energy (e : EvaluatorPairLJLow) (f p : ℚ)
    (hr : e.rsq < e.rcutsq) (hl : e.lj1 ≠ 0) :
    (e.evalForceAndEnergy f p true).2.1 = (e.evalForceAndEnergy f p false).2.1 ∧
      (e.evalForceAndEnergy f p true).2.2 =
        (e.evalForceAndEnergy f p false).2.2 -
          ((1 / e.rcutsq) * (1 / e.rcutsq) * (1 / e.rcutsq)) *
            (e.lj1 * ((1 / e.rcutsq) * (1 / e.rcutsq) * (1 / e.rcutsq)) - e.lj2) := by
  simp [EvaluatorPairLJLow.evalForceAndEnergy, if_pos (And.intro hr hl)]

/-- Witness for C3 at `rsq = 1 < rcutsq = 9`, `lj1 = lj2 = 4`. -/
theorem C3_shift_only_energy_witness :
    ((EvaluatorPairLJLow.mk 1 9 4 4).evalForceAndEnergy 0 0 true).2.1 =
        ((EvaluatorPairLJLow.mk 1 9 4 4).evalForceAndEnergy 0 0 false).2.1 ∧
      ((EvaluatorPairLJLow.mk 1 9 4 4).evalForceAndEnergy 0 0 true).2.2 =
        ((EvaluatorPairLJLow.mk 1 9 4 4).evalForceAndEnergy 0 0 false).2.2 -
          ((1 / (9:ℚ)) * (1 / (9:ℚ)) * (1 / (9:ℚ))) *
            (4 * ((1 / (9:ℚ)) * (1 / (9:ℚ)) * (1 / (9:ℚ))) - 4) :=
  C3_shift_only_energy ⟨1, 9, 4, 4⟩ 0 0 (by decide) (by decide)

/-- C9: `needsDiameter` and `needsCharge` are both `false`, and for every
evaluator state the `setDiameter` / `setCharge` calls are no-ops: they leave
all stored fields unchanged and subsequent `evalForceAndEnergy` results are
identical with or without the call, for every diameter and charge. -/
theorem C9_setters_noops :
    EvaluatorPairLJLow.needsDiameter = false ∧
      EvaluatorPairLJLow.needsCharge = false ∧
      ∀ (e : EvaluatorPairLJLow) (di dj qi qj f p : ℚ) (s : Bool),
        e.setDiameter di dj = e ∧ e.setCharge qi qj = e ∧
          (e.setDiameter di dj).evalForceAndEnergy f p s =
            e.evalForceAndEnergy f p s ∧
          (e.setCharge qi qj).evalForceAndEnergy f p s =
            e.evalForceAndEnergy f p s :=
  ⟨rfl, rfl, fun _ _ _ _ _ _ _ _ => ⟨rfl, rfl, rfl, rfl⟩⟩

/-- C10: a default-constructed `param_type` has `lj1 = 0` and `lj2 = 0`, so
an evaluator built from default parameters returns `false` from
`evalForceAndEnergy` for every `rsq`, `rcutsq` and `energy_shift` flag. -/
theorem C10_default_no_interaction :
    param_type.default.lj1 = 0 ∧ param_type.default.lj2 = 0 ∧
      ∀ (rsq rcutsq f p : ℚ) (s : Bool),
        ((EvaluatorPairLJLow.ofParams rsq rcutsq
            param_type.default).evalForceAndEnergy f p s).1 = false := by
  refine ⟨rfl, rfl, fun rsq rcutsq f p s => ?_⟩
  simp [EvaluatorPairLJLow.evalForceAndEnergy, EvaluatorPairLJLow.ofParams,
    param_type.default]

end LJLow

namespace LJLow

/-- The shifted pair energy computed in the valid branch of
`evalForceAndEnergy` with `energy_shift = true` (EvaluatorPairLJLow.h lines
239-250), as a function of the four stored fields. -/
def shiftedPairEnergy (rsq rcutsq lj1 lj2 : ℚ) : ℚ :=
  let r2inv : ℚ := 1 / rsq
  let r6inv : ℚ := r2inv * r2inv * r2inv
  let rcut2inv : ℚ := 1 / rcutsq
  let rcut6inv : ℚ := rcut2inv * rcut2inv * rcut2inv
  r6inv * (lj1 * r6inv - lj2) - rcut6inv * (lj1 * rcut6inv - lj2)

/-- On valid inputs, the `energy_shift = true` energy output of
`evalForceAndEnergy` is exactly `shiftedPairEnergy` of the stored fields. -/
theorem evalForceAndEnergy_shift_energy_eq (e : EvaluatorPairLJLow)
    (f p : ℚ) (hr : e.rsq < e.rcutsq) (hl : e.lj1 ≠ 0) :
    (e.evalForceAndEnergy f p true).2.2 =
      shiftedPairEnergy e.rsq e.rcutsq e.lj1 e.lj2 := by
  simp [EvaluatorPairLJLow.evalForceAndEnergy, if_pos (And.intro hr hl),
    shiftedPairEnergy]

/-- C4 counterexample: with `energy_shift = true` and `rsq` exactly equal to
`rcutsq` (both 9 here, `lj1 = lj2 = 4`, incoming `pair_eng = 5`), evaluation
does not yield a pair energy of 0: the validity check `rsq < rcutsq` fails,
the call returns `false`, and the energy out-parameter keeps its incoming
value 5 ≠ 0. -/
theorem C4_at_cutoff_counterexample :
    ((EvaluatorPairLJLow.mk 9 9 4 4).evalForceAndEnergy 0 5 true).1 = false ∧
      ((EvaluatorPairLJLow.mk 9 9 4 4).evalForceAndEnergy 0 5 true).2.2 = 5 ∧
      ((EvaluatorPairLJLow.mk 9 9 4 4).evalForceAndEnergy 0 5 true).2.2 ≠ 0 := by
  decide

/-- C4 (amended): at `rsq` exactly equal to `rcutsq` the evaluation itself
returns invalid (`false`), producing no energy; the energy-shifted formula
of the valid branch, extended to `rsq = rcutsq`, equals exactly 0 — the
shifted potential is continuous and reaches zero at the cutoff radius. -/
theorem C4_shifted_energy_zero_at_cutoff (rcutsq lj1 lj2 f p : ℚ) (s : Bool)
    (h : 0 < rcutsq) :
    ((EvaluatorPairLJLow.mk rcutsq rcutsq lj1 lj2).evalForceAndEnergy
        f p s).1 = false ∧
      shiftedPairEnergy rcutsq rcutsq lj1 lj2 = 0 := by
  constructor
  · simp [EvaluatorPairLJLow.evalForceAndEnergy]
  · simp only [shiftedPairEnergy]
    ring

/-- Witness for the amended C4 at `rcutsq = 9`, `lj1 = lj2 = 4`. -/
theorem C4_shifted_energy_zero_at_cutoff_witness :
    (0:ℚ) < 9 ∧
      (((EvaluatorPairLJLow.mk 9 9 4 4).evalForceAndEnergy 0 5 true).1 = false ∧
        shiftedPairEnergy 9 9 4 4 = 0) :=
  ⟨by decide, C4_shifted_energy_zero_at_cutoff 9 4 4 0 5 true (by decide)⟩

/-- Guarded division: `none` exactly when the divisor is zero, otherwise the
exact quotient. -/
def div? (a b : ℚ) : Option ℚ := if b = 0 then none else some (a / b)

/-- `evalForceAndEnergy` with every division of the C++ body (the `1.0/rsq`
of line 239 and the `1.0/rcutsq` of line 247) routed through the guarded
`div?`; a zero divisor aborts the whole computation with `none`. -/
def EvaluatorPairLJLow.evalForceAndEnergyChecked (e : EvaluatorPairLJLow)
    (force_divr pair_eng : ℚ) (energy_shift : Bool) :
    Option (Bool × ℚ × ℚ) :=
  if e.rsq < e.rcutsq ∧ e.lj1 ≠ 0 then
    match div? 1 e.rsq with
    | none => none
    | some r2inv =>
      let r6inv : ℚ := r2inv * r2inv * r2inv
      let force_divr : ℚ := r2inv * r6inv * (12 * e.lj1 * r6inv - 6 * e.lj2)
      let pair_eng : ℚ := r6inv * (e.lj1 * r6inv - e.lj2)
      if energy_shift then
        match div? 1 e.rcutsq with
        | none => none
        | some rcut2inv =>
          let rcut6inv : ℚ := rcut2inv * rcut2inv * rcut2inv
          some (true, force_divr,
            pair_eng - rcut6inv * (e.lj1 * rcut6inv - e.lj2))
      else
        some (true, force_divr, pair_eng)
  else
    some (false, force_divr, pair_eng)

/-- C5: under the precondition `0 < rsq`, every division of
`evalForceAndEnergy` has a nonzero divisor — the `1/rsq` division is only
reached with `rsq ≠ 0`, and the `1/rcutsq` division is only reached when
`rsq < rcutsq` forces `rcutsq > 0` — so the guarded-division variant never
hits its error branch and agrees with the total function. -/
theorem C5_no_division_by_zero (e : EvaluatorPairLJLow) (f p : ℚ) (s : Bool)
    (h : 0 < e.rsq) :
    e.evalForceAndEnergyChecked f p s = some (e.evalForceAndEnergy f p s) := by
  by_cases hc : e.rsq < e.rcutsq ∧ e.lj1 ≠ 0
  · have hrsq : e.rsq ≠ 0 := ne_of_gt h
    have hrcut : e.rcutsq ≠ 0 := ne_of_gt (lt_trans h hc.1)
    cases s <;>
      simp [EvaluatorPairLJLow.evalForceAndEnergyChecked,
        EvaluatorPairLJLow.evalForceAndEnergy, hc, div?, hrsq, hrcut]
  · simp [EvaluatorPairLJLow.evalForceAndEnergyChecked,
      EvaluatorPairLJLow.evalForceAndEnergy, hc]

/-- Witness for C5 at `rsq = 1 > 0`, with the energy shift on so that both
divisions are exercised. -/
theorem C5_no_division_by_zero_witness :
    (0:ℚ) < 1 ∧
      (EvaluatorPairLJLow.mk 1 9 4 4).evalForceAndEnergyChecked 0 0 true =
        some ((EvaluatorPairLJLow.mk 1 9 4 4).evalForceAndEnergy 0 0 true) :=
  ⟨by decide, C5_no_division_by_zero ⟨1, 9, 4, 4⟩ 0 0 true (by decide)⟩

/-- C6: `sigma = 1`, `epsilon = 1` gives `lj1 = 4` and `lj2 = 4`; the
evaluator built from these with `rsq = 1`, `rcutsq = 9`, shift off, returns
`(true, 24, 0)` exactly, and with `rsq = 10 > rcutsq = 9` it returns
`false`. -/
theorem C6_concrete_scenario :
    param_type.ofSigmaEpsilon 1 1 = { lj1 := 4, lj2 := 4 } ∧
      (EvaluatorPairLJLow.ofParams 1 9
          (param_type.ofSigmaEpsilon 1 1)).evalForceAndEnergy 0 0 false =
        (true, 24, 0) ∧
      ((EvaluatorPairLJLow.ofParams 10 9
          (param_type.ofSigmaEpsilon 1 1)).evalForceAndEnergy 0 0 false).1 =
        false := by
  refine ⟨?_, ?_, ?_⟩ <;>
    norm_num [param_type.ofSigmaEpsilon, EvaluatorPairLJLow.ofParams,
      EvaluatorPairLJLow.evalForceAndEnergy, param_type.mk.injEq,
      Prod.ext_iff]

end LJLow

namespace LJLow

/-- C7: building `param_type` from positive `sigma` and `epsilon`
(`lj1 = 4εσ^12`, `lj2 = 4εσ^6`) and exporting back through `asDict`
(`sigma6 = lj1/lj2`, `sigma = sigma6^(1/6)`, `epsilon = lj2/(sigma6·4)`)
reproduces the original `sigma` and `epsilon` exactly in the exact-real
model; in particular the round-trip from `(1, 1)` reproduces `(1, 1)`. -/
theorem C7_roundtrip (sigma epsilon : ℚ) (hs : 0 < sigma) (he : 0 < epsilon) :
    (param_type.ofSigmaEpsilon sigma epsilon).asDict =
      ((sigma : ℝ), (epsilon : ℝ)) := by
  have hsR : (0:ℝ) < (sigma : ℝ) := by exact_mod_cast hs
  have heR : (0:ℝ) < (epsilon : ℝ) := by exact_mod_cast he
  have hsne : (sigma : ℝ) ≠ 0 := ne_of_gt hsR
  have hene : (epsilon : ℝ) ≠ 0 := ne_of_gt heR
  have h6 : ((4 * epsilon * sigma ^ 12 : ℚ) : ℝ) /
        ((4 * epsilon * sigma ^ 6 : ℚ) : ℝ) = (sigma : ℝ) ^ (6 : ℕ) := by
    push_cast
    field_simp
    ring
  simp only [param_type.asDict, param_type.ofSigmaEpsilon, h6, Prod.mk.injEq]
  constructor
  · rw [← Real.rpow_natCast (sigma : ℝ) 6, ← Real.rpow_mul hsR.le]
    rw [show ((6 : ℕ) : ℝ) * ((1 : ℝ) / 6) = 1 by norm_num, Real.rpow_one]
  · push_cast
    field_simp
    ring

/-- Witness for C7 at `sigma = 1`, `epsilon = 1`. -/
theorem C7_roundtrip_witness :
    (0:ℚ) < 1 ∧
      (param_type.ofSigmaEpsilon 1 1).asDict = (((1:ℚ) : ℝ), ((1:ℚ) : ℝ)) :=
  ⟨by decide, C7_roundtrip 1 1 (by decide) (by decide)⟩

/-- C8 counterexample: `getShapeSpec` does fail unconditionally, but the
user-visible message — "Shape definition not supported for this pair
potential." — does not name the potential variant: neither the registered
name `"ljlow"` (the value of `getName`), nor `"LJLow"`, nor even `"LJ"`,
occurs anywhere in the message. -/
theorem C8_message_counterexample :
    EvaluatorPairLJLow.getName = "ljlow" ∧
      (EvaluatorPairLJLow.mk 1 9 4 4).getShapeSpec =
        Except.error
          "Shape definition not supported for this pair potential." ∧
      ¬ (EvaluatorPairLJLow.getName.toList <:+:
          "Shape definition not supported for this pair potential.".toList) ∧
      ¬ ("LJLow".toList <:+:
          "Shape definition not supported for this pair potential.".toList) ∧
      ¬ ("LJ".toList <:+:
          "Shape definition not supported for this pair potential.".toList) := by
  refine ⟨rfl, rfl, ?_, ?_, ?_⟩ <;> decide

/-- C8 (amended): `getShapeSpec` always fails — it never yields an ok
result — and the error message names the unsupported capability (the shape
definition), but identifies the variant only generically as "this pair
potential" rather than by its registered name. -/
theorem C8_always_fails (e : EvaluatorPairLJLow) :
    e.getShapeSpec =
        Except.error
          "Shape definition not supported for this pair potential." ∧
      e.getShapeSpec.isOk = false ∧
      ("Shape definition not supported".toList <:+:
        "Shape definition not supported for this pair potential.".toList) := by
  refine ⟨rfl, rfl, ?_⟩
  decide

end LJLow
